import Mathlib

/-!
Verification of the MavlinkStreamAvesaidStatus telemetry adapter
(src/src/modules/mavlink/streams/AVESAID_STATUS.hpp).

The adapter bridges a uORB publish/subscribe topic (`avesaid_status`) to a
MAVLink wire message. The uORB subscription machinery and the MAVLink codec
are external collaborators (not part of this repository's sources); their
contracts are modelled from the specification. The adapter members
`get_name`, `get_id`, `get_size` and `send` are translated directly from
the source file.
-/

namespace AvesAID

/-- The `avesaid_status_s` uORB record, with the fields read by the adapter
in `send`: a timestamp and five boolean status flags
(AVESAID_STATUS.hpp lines 69-74). -/
structure avesaid_status_s where
  timestamp : Nat
  flag_mode_attachment_enabled : Bool
  flag_mode_partial_attachment_enabled : Bool
  flag_magnet_enabled : Bool
  flag_height_source_baro_enabled : Bool
  flag_height_source_slam_enabled : Bool
  deriving DecidableEq, Repr

/-- The zero record produced by C++ value-initialization
`avesaid_status_s avesaid_status` followed by empty braces
(AVESAID_STATUS.hpp line 62). -/
def avesaid_status_s.zero : avesaid_status_s :=
  { timestamp := 0
    flag_mode_attachment_enabled := false
    flag_mode_partial_attachment_enabled := false
    flag_magnet_enabled := false
    flag_height_source_baro_enabled := false
    flag_height_source_slam_enabled := false }

/-- The `mavlink_avesaid_status_t` wire message. The six fields assigned by
`send` are listed; `otherFields` stands for any remaining schema fields or
padding of the fixed message layout, which the adapter never assigns.
Modelled from the spec: the MAVLink generated struct is an external
collaborator; the spec describes WireMessage as a fixed-layout serialized
form of a StateRecord. -/
structure mavlink_avesaid_status_t where
  timestamp : Nat
  flag_mode_attachment_enabled : Bool
  flag_mode_partial_attachment_enabled : Bool
  flag_magnet_enabled : Bool
  flag_height_source_baro_enabled : Bool
  flag_height_source_slam_enabled : Bool
  otherFields : Nat
  deriving DecidableEq, Repr

/-- Modelled from the spec: the uORB topic slot plus the adapter's single
subscription handle. The spec prescribes a single-slot cell holding the
most recent published value plus a freshness flag, overwritten atomically
by the producer and consumed-and-cleared by the reader; `advertised`
records whether any publisher has ever attached. -/
structure OrbTopicState where
  advertised : Bool
  latest : avesaid_status_s
  fresh : Bool
  deriving DecidableEq, Repr

/-- Modelled from the spec: a publish replaces the previous value
atomically, marks the slot fresh, and (first time) attaches the
publisher, after which `advertised` stays true. -/
def OrbTopicState.publish (_t : OrbTopicState) (r : avesaid_status_s) : OrbTopicState :=
  { advertised := true, latest := r, fresh := true }

/-- Modelled from the spec: `uORB::Subscription::update(out)` fails
silently returning false if no value newer than the last one retrieved
exists; otherwise copies the latest value into `out`, returns true, and
consumes the freshness (at-most-once delivery per fresh publish). -/
def OrbTopicState.update (t : OrbTopicState) : Option avesaid_status_s × OrbTopicState :=
  if t.fresh then (some t.latest, { t with fresh := false }) else (none, t)

/-- The field-by-field transcoding performed by `send`
(AVESAID_STATUS.hpp lines 67-74): the message is value-initialized (all
fields zero) and then the timestamp and the five flags are copied
verbatim from the uORB record; no other field is assigned. -/
def transcode (v : avesaid_status_s) : mavlink_avesaid_status_t :=
  { timestamp := v.timestamp
    flag_mode_attachment_enabled := v.flag_mode_attachment_enabled
    flag_mode_partial_attachment_enabled := v.flag_mode_partial_attachment_enabled
    flag_magnet_enabled := v.flag_magnet_enabled
    flag_height_source_baro_enabled := v.flag_height_source_baro_enabled
    flag_height_source_slam_enabled := v.flag_height_source_slam_enabled
    otherFields := 0 }

/-- Result of one `send` call: the boolean return value, the list of wire
writes performed during the call, and the adapter state afterwards. -/
structure SendResult where
  ret : Bool
  sent : List mavlink_avesaid_status_t
  state : OrbTopicState
  deriving DecidableEq, Repr

/-- `MavlinkStreamAvesaidStatus::send` (AVESAID_STATUS.hpp lines 60-83):
if `_avesaid_status_sub.update` yields a fresh record, populate the
MAVLink message from it, hand it to the transport
(`mavlink_msg_avesaid_status_send_struct`) and return true; otherwise
return false with no wire write. -/
def send (s : OrbTopicState) : SendResult :=
  match s.update with
  | (some v, s') => { ret := true, sent := [transcode v], state := s' }
  | (none, s') => { ret := false, sent := [], state := s' }

/-- `MAVLINK_MSG_ID_AVESAID_STATUS_LEN`. Modelled from the spec: the
generated MAVLink header is external; the payload length is the schema
constant for a message of one uint64 timestamp and five one-byte flags. -/
def MAVLINK_MSG_ID_AVESAID_STATUS_LEN : Nat := 13

/-- `MAVLINK_NUM_NON_PAYLOAD_BYTES`. Modelled from the spec: the framing
overhead constant of the external MAVLink transport (12 bytes in
MAVLink 2). -/
def MAVLINK_NUM_NON_PAYLOAD_BYTES : Nat := 12

/-- `MAVLINK_MSG_ID_AVESAID_STATUS`. Modelled from the spec: the numeric
message id assigned to this message in the external MAVLink dialect. -/
def MAVLINK_MSG_ID_AVESAID_STATUS : Nat := 11000

/-- `MavlinkStreamAvesaidStatus::get_name_static`
(AVESAID_STATUS.hpp line 44). -/
def get_name_static : String := "AVESAID_STATUS"

/-- `MavlinkStreamAvesaidStatus::get_id_static`
(AVESAID_STATUS.hpp line 45). -/
def get_id_static : Nat := MAVLINK_MSG_ID_AVESAID_STATUS

/-- `MavlinkStreamAvesaidStatus::get_name` (AVESAID_STATUS.hpp line 47):
a const member returning the static name. -/
def get_name (_s : OrbTopicState) : String := get_name_static

/-- `MavlinkStreamAvesaidStatus::get_id` (AVESAID_STATUS.hpp line 48):
returns the static id. -/
def get_id (_s : OrbTopicState) : Nat := get_id_static

/-- `MavlinkStreamAvesaidStatus::get_size` (AVESAID_STATUS.hpp
lines 50-54): the schema length plus framing overhead when the topic is
advertised, zero otherwise. -/
def get_size (s : OrbTopicState) : Nat :=
  if s.advertised then MAVLINK_MSG_ID_AVESAID_STATUS_LEN + MAVLINK_NUM_NON_PAYLOAD_BYTES else 0

/-- Operations an execution can perform on the adapter and its topic:
a publish on the state bus, a call to `send`, or one of the observation
members. -/
inductive Op where
  | publish (r : avesaid_status_s)
  | sendOp
  | getSizeOp
  | getNameOp
  | getIdOp
  deriving DecidableEq, Repr

/-- One execution step: the state after the operation and the wire writes
it performed. Observations read the state and write nothing. -/
def step (s : OrbTopicState) : Op → OrbTopicState × List mavlink_avesaid_status_t
  | .publish r => (s.publish r, [])
  | .sendOp => ((send s).state, (send s).sent)
  | .getSizeOp => (s, [])
  | .getNameOp => (s, [])
  | .getIdOp => (s, [])

/-- Run a sequence of operations, accumulating all wire writes. -/
def run (s : OrbTopicState) : List Op → OrbTopicState × List mavlink_avesaid_status_t
  | [] => (s, [])
  | op :: ops =>
      let p := step s op
      let q := run p.1 ops
      (q.1, p.2 ++ q.2)

/-- Fold a batch of publishes into the state. -/
def pubAll (s : OrbTopicState) (rs : List avesaid_status_s) : OrbTopicState :=
  rs.foldl OrbTopicState.publish s

end AvesAID

namespace AvesAID

/-- Helper: a `send` call always leaves the subscription without a fresh
value, whether or not it emitted. -/
theorem send_state_fresh (s : OrbTopicState) : (send s).state.fresh = false := by
  cases h : s.fresh <;> simp [send, OrbTopicState.update, h]

/-- Helper: `send` never changes whether the topic is advertised. -/
theorem send_state_advertised (s : OrbTopicState) :
    (send s).state.advertised = s.advertised := by
  cases h : s.fresh <;> simp [send, OrbTopicState.update, h]

/-- Helper: with no fresh value, `send` returns false, writes nothing and
leaves the state unchanged. -/
theorem send_stale_eq (s : OrbTopicState) (h : s.fresh = false) :
    send s = ⟨false, [], s⟩ := by
  simp [send, OrbTopicState.update, h]

/-- Helper: a run of operations never turns `advertised` off. -/
theorem run_advertised (ops : List Op) (s : OrbTopicState)
    (h : s.advertised = true) : ((run s ops).1).advertised = true := by
  induction ops generalizing s with
  | nil => exact h
  | cons op ops ih =>
      cases op with
      | publish r => exact ih _ rfl
      | sendOp => exact ih _ (by simp [step, send_state_advertised, h])
      | getSizeOp => exact ih _ h
      | getNameOp => exact ih _ h
      | getIdOp => exact ih _ h

end AvesAID

namespace AvesAID

/-- Scenario 1 state: no publisher ever attached, no fresh value. -/
def scenario1st : OrbTopicState :=
  { advertised := false, latest := avesaid_status_s.zero, fresh := false }

/-- Scenario 2 record: flags true, false, true, false, true in field
order. -/
def scenario2rec : avesaid_status_s :=
  { timestamp := 100
    flag_mode_attachment_enabled := true
    flag_mode_partial_attachment_enabled := false
    flag_magnet_enabled := true
    flag_height_source_baro_enabled := false
    flag_height_source_slam_enabled := true }

/-- Scenario 2 state: publisher attached and one unconsumed publish of
`scenario2rec`. -/
def scenario2st : OrbTopicState :=
  { advertised := true, latest := scenario2rec, fresh := true }

/-- C1: for every state of the subscription, `get_size` returns 0 when
`advertised` is false and otherwise returns exactly
`MAVLINK_MSG_ID_AVESAID_STATUS_LEN + MAVLINK_NUM_NON_PAYLOAD_BYTES`,
a positive constant; it never returns any other value. -/
theorem avesaid_get_size_cases (s : OrbTopicState) :
    get_size s =
      (if s.advertised then
        MAVLINK_MSG_ID_AVESAID_STATUS_LEN + MAVLINK_NUM_NON_PAYLOAD_BYTES
      else 0) ∧
    0 < MAVLINK_MSG_ID_AVESAID_STATUS_LEN + MAVLINK_NUM_NON_PAYLOAD_BYTES := by
  exact ⟨rfl, by decide⟩

/-- C2: whenever the subscription holds a fresh value, `send` returns
true, performs exactly one wire write, and the emitted message's
timestamp and five flag fields equal the corresponding fields of the
latest published record verbatim. -/
theorem avesaid_send_fresh (s : OrbTopicState) (h : s.fresh = true) :
    (send s).ret = true ∧
    (send s).sent = [transcode s.latest] ∧
    (transcode s.latest).timestamp = s.latest.timestamp ∧
    (transcode s.latest).flag_mode_attachment_enabled =
      s.latest.flag_mode_attachment_enabled ∧
    (transcode s.latest).flag_mode_partial_attachment_enabled =
      s.latest.flag_mode_partial_attachment_enabled ∧
    (transcode s.latest).flag_magnet_enabled = s.latest.flag_magnet_enabled ∧
    (transcode s.latest).flag_height_source_baro_enabled =
      s.latest.flag_height_source_baro_enabled ∧
    (transcode s.latest).flag_height_source_slam_enabled =
      s.latest.flag_height_source_slam_enabled := by
  refine ⟨?_, ?_, rfl, rfl, rfl, rfl, rfl, rfl⟩ <;>
    simp [send, OrbTopicState.update, h]

/-- C2 witness: in scenario 2 the state holds a fresh record with flags
true, false, true, false, true, and the first `send` emits exactly the
transcoded message. -/
theorem avesaid_send_fresh_witness :
    scenario2st.fresh = true ∧
    ((send scenario2st).ret = true ∧
     (send scenario2st).sent = [transcode scenario2st.latest] ∧
     (transcode scenario2st.latest).timestamp = scenario2st.latest.timestamp ∧
     (transcode scenario2st.latest).flag_mode_attachment_enabled =
       scenario2st.latest.flag_mode_attachment_enabled ∧
     (transcode scenario2st.latest).flag_mode_partial_attachment_enabled =
       scenario2st.latest.flag_mode_partial_attachment_enabled ∧
     (transcode scenario2st.latest).flag_magnet_enabled =
       scenario2st.latest.flag_magnet_enabled ∧
     (transcode scenario2st.latest).flag_height_source_baro_enabled =
       scenario2st.latest.flag_height_source_baro_enabled ∧
     (transcode scenario2st.latest).flag_height_source_slam_enabled =
       scenario2st.latest.flag_height_source_slam_enabled) :=
  ⟨rfl, avesaid_send_fresh scenario2st rfl⟩

/-- C3: whenever the subscription has no value newer than the last one
retrieved, `send` returns false, performs zero wire writes and leaves the
adapter state unchanged. -/
theorem avesaid_send_stale (s : OrbTopicState) (h : s.fresh = false) :
    (send s).ret = false ∧ (send s).sent = [] ∧ (send s).state = s := by
  rw [send_stale_eq s h]
  exact ⟨rfl, rfl, rfl⟩

/-- C3 witness: in scenario 1 there is no fresh value and `send` returns
false with no wire write and an unchanged state. -/
theorem avesaid_send_stale_witness :
    scenario1st.fresh = false ∧
    ((send scenario1st).ret = false ∧ (send scenario1st).sent = [] ∧
     (send scenario1st).state = scenario1st) :=
  ⟨rfl, avesaid_send_stale scenario1st rfl⟩

/-- C4: last-value-wins: after any nonempty batch of publishes (a list
`rs` followed by a final record `r`) between two `send` calls, the next
`send` returns true emitting exactly the transcoding of the last
published record `r`, and a further `send` with no new publish returns
false with no wire write, so the earlier records are never emitted. -/
theorem avesaid_last_value_wins (s : OrbTopicState)
    (rs : List avesaid_status_s) (r : avesaid_status_s) :
    (send (pubAll s (rs ++ [r]))).ret = true ∧
    (send (pubAll s (rs ++ [r]))).sent = [transcode r] ∧
    (send ((send (pubAll s (rs ++ [r]))).state)).ret = false ∧
    (send ((send (pubAll s (rs ++ [r]))).state)).sent = [] := by
  have hp : pubAll s (rs ++ [r]) = { advertised := true, latest := r, fresh := true } := by
    simp [pubAll, List.foldl_append, OrbTopicState.publish]
  rw [hp]
  refine ⟨rfl, rfl, ?_, ?_⟩ <;>
    simp [send, OrbTopicState.update]

/-- C5: for every adapter state, a second `send` with no intervening
publish returns false and produces zero wire writes: a successful emit
consumes the freshness of the value it sent. -/
theorem avesaid_second_send_false (s : OrbTopicState) :
    (send ((send s).state)).ret = false ∧
    (send ((send s).state)).sent = [] ∧
    (send ((send s).state)).state = (send s).state := by
  rw [send_stale_eq _ (send_state_fresh s)]
  exact ⟨rfl, rfl, rfl⟩

end AvesAID

namespace AvesAID

/-- Advertised-but-stale state used as a concrete starting point. -/
def monoSt : OrbTopicState :=
  { advertised := true, latest := avesaid_status_s.zero, fresh := false }

/-- A concrete operation sequence mixing sends, a publish and
observations. -/
def monoOps : List Op :=
  [Op.sendOp, Op.publish avesaid_status_s.zero, Op.sendOp, Op.getSizeOp]

/-- C6: once `get_size` has become non-zero (a publisher attached), it
returns the positive constant after every further sequence of
operations: it never transitions back to 0. -/
theorem avesaid_size_monotone (s : OrbTopicState) (ops : List Op)
    (h : get_size s ≠ 0) :
    get_size ((run s ops).1) =
      MAVLINK_MSG_ID_AVESAID_STATUS_LEN + MAVLINK_NUM_NON_PAYLOAD_BYTES ∧
    get_size ((run s ops).1) ≠ 0 := by
  have ha : s.advertised = true := by
    cases hA : s.advertised
    · simp [get_size, hA] at h
    · rfl
  have hr := run_advertised ops s ha
  refine ⟨by simp [get_size, hr], ?_⟩
  simp [get_size, hr, MAVLINK_MSG_ID_AVESAID_STATUS_LEN,
    MAVLINK_NUM_NON_PAYLOAD_BYTES]

/-- C6 witness: from an advertised state, after a send, a publish,
another send and a size poll, `get_size` still returns the constant. -/
theorem avesaid_size_monotone_witness :
    get_size monoSt ≠ 0 ∧
    (get_size ((run monoSt monoOps).1) =
       MAVLINK_MSG_ID_AVESAID_STATUS_LEN + MAVLINK_NUM_NON_PAYLOAD_BYTES ∧
     get_size ((run monoSt monoOps).1) ≠ 0) :=
  ⟨by decide, avesaid_size_monotone monoSt monoOps (by decide)⟩

/-- C7: idempotence of absence: with no unconsumed value and no new
publish, any number of `send` calls each return false, perform zero
transport writes in total and leave the adapter state exactly as it
was. -/
theorem avesaid_idempotent_absence (s : OrbTopicState) (n : Nat)
    (h : s.fresh = false) :
    run s (List.replicate n Op.sendOp) = (s, []) ∧ (send s).ret = false := by
  constructor
  · induction n with
    | zero => rfl
    | succ n ih =>
        simp [List.replicate_succ, run, step, send_stale_eq s h, ih]
  · rw [send_stale_eq s h]

/-- C7 witness: with no publisher ever attached, three consecutive polls
return false and accumulate no writes and no state change. -/
theorem avesaid_idempotent_absence_witness :
    scenario1st.fresh = false ∧
    (run scenario1st (List.replicate 3 Op.sendOp) = (scenario1st, []) ∧
     (send scenario1st).ret = false) :=
  ⟨rfl, avesaid_idempotent_absence scenario1st 3 rfl⟩

/-- C8: `get_name` and `get_id` are constants fixed for the adapter's
lifetime: after every sequence of operations, `get_name` returns
"AVESAID_STATUS" (equal to `get_name_static`) and `get_id` returns
`MAVLINK_MSG_ID_AVESAID_STATUS` (equal to `get_id_static`). -/
theorem avesaid_identity_constants (s : OrbTopicState) (ops : List Op) :
    get_name ((run s ops).1) = get_name_static ∧
    get_name_static = "AVESAID_STATUS" ∧
    get_id ((run s ops).1) = get_id_static ∧
    get_id_static = MAVLINK_MSG_ID_AVESAID_STATUS :=
  ⟨rfl, rfl, rfl, rfl⟩

/-- C9: `get_size`, `get_name` and `get_id` are pure observations: each
performs no wire write and leaves the state unchanged, and after any run
of the three observations the next `send` behaves exactly as it would
have without them. -/
theorem avesaid_observations_pure (s : OrbTopicState) :
    step s Op.getSizeOp = (s, []) ∧
    step s Op.getNameOp = (s, []) ∧
    step s Op.getIdOp = (s, []) ∧
    (run s [Op.getSizeOp, Op.getNameOp, Op.getIdOp]).1 = s ∧
    (run s [Op.getSizeOp, Op.getNameOp, Op.getIdOp]).2 = [] ∧
    send ((run s [Op.getSizeOp, Op.getNameOp, Op.getIdOp]).1) = send s :=
  ⟨rfl, rfl, rfl, rfl, rfl, rfl⟩

/-- C10: the outgoing wire message is value-initialized before the field
assignments, so in every message emitted by `send` all schema fields
other than the six explicitly transcoded ones are zero. -/
theorem avesaid_unassigned_fields_zero (s : OrbTopicState) :
    ((send s).sent.all fun m => m.otherFields == 0) = true := by
  cases h : s.fresh <;> simp [send, OrbTopicState.update, h, transcode]

end AvesAID
